import Mathlib

/-!
Verification of the order/inventory workflow of the Blood Bank Marketplace
application (src/bloodbank.py), as a shallow embedding.

The database is modelled as lists of rows together with auto-increment
counters.  Statuses and payment methods are the string literals the source
uses.  DECIMAL money amounts are modelled as natural numbers (cents) and
DATE values as natural numbers (days); both are only ever copied and
compared by the workflows.  A workflow running on a `autocommit=False`
connection is modelled as a pure function returning the committed state:
statements issued before an exception are rolled back, so an injected
fault returns the original state.  Statements issued through the helper
`execute` of the source run on their own auto-commit connection, so the
model applies each of them to the state immediately.
-/

namespace BloodBank

/-- One row of inventory_batches (the columns the workflows touch). -/
structure Batch where
  batch_id : Nat
  donation_id : Option Nat
  retailer_id : Nat
  blood_type_id : Nat
  quantity_ml : Nat
  unit_count : Nat
  quality : String
  status : String
  price_per_unit : Nat
  expiry_date : Option Nat
deriving Repr, DecidableEq

/-- One row of orders (the columns the workflows touch). -/
structure Order where
  order_id : Nat
  customer_id : Nat
  retailer_id : Nat
  total_amount : Nat
  status : String
  notes : String
  modified_at : Option Nat
deriving Repr, DecidableEq

/-- One row of order_items. -/
structure OrderItem where
  order_item_id : Nat
  order_id : Nat
  batch_id : Nat
  blood_type_id : Nat
  quantity_ml : Nat
  unit_price : Nat
  subtotal : Nat
deriving Repr, DecidableEq

/-- One row of payments (the columns the workflows touch). -/
structure Payment where
  payment_id : Nat
  order_id : Nat
  amount : Nat
  method : String
  status : String
deriving Repr, DecidableEq

/-- One row of donors (the columns donation recording touches). -/
structure Donor where
  donor_id : Nat
  full_name : String
  phone : String
  blood_type_id : Nat
deriving Repr, DecidableEq

/-- One row of donations (the columns donation recording touches). -/
structure Donation where
  donation_id : Nat
  donor_id : Option Nat
  retailer_id : Nat
  collected_at : Nat
  volume_ml : Nat
deriving Repr, DecidableEq

/-- One row of retailers (the columns the browse query reads). -/
structure Retailer where
  retailer_id : Nat
  name : String
  city : String
deriving Repr, DecidableEq

/-- One row of blood_types. -/
structure BloodType where
  id : Nat
  code : String
deriving Repr, DecidableEq

/-- The database state: the tables the order/inventory workflow touches,
plus the AUTO_INCREMENT counters of the tables the workflows insert into. -/
structure DB where
  batches : List Batch
  orders : List Order
  order_items : List OrderItem
  payments : List Payment
  donors : List Donor
  donations : List Donation
  retailers : List Retailer
  blood_types : List BloodType
  nextOrderId : Nat
  nextOrderItemId : Nat
  nextPaymentId : Nat
  nextDonorId : Nat
  nextDonationId : Nat
  nextBatchId : Nat
deriving Repr, DecidableEq

/-- Result of a place-order attempt.  NotFound is the source branch
printing "Batch not found"; NotAvailable carries the status printed by
"Batch not available (Status: ...)"; Failed is the exception branch
(the transaction was not committed). -/
inductive PlaceResult where
  | NotFound : PlaceResult
  | NotAvailable : String → PlaceResult
  | Placed : Nat → PlaceResult
  | Failed : PlaceResult
deriving Repr, DecidableEq

/-- True only for a successful placement. -/
def PlaceResult.isPlaced : PlaceResult → Bool
  | .Placed _ => true
  | _ => false

/-- The four writes of the place-order transaction, used for fault
injection: a fault at a step models that SQL statement raising. -/
inductive PlaceStep where
  | orderInsert
  | itemInsert
  | paymentInsert
  | batchUpdate
deriving Repr, DecidableEq

/-- Place Order (Customer Portal).  Mirrors src/bloodbank.py lines 642 to
688: on a connection with autocommit=False, SELECT the batch FOR UPDATE;
if absent report not found, if status is not available report not
available; otherwise insert the order, the order item and the pending
payment, set the batch to reserved, and commit.  A fault at any of the
four write steps raises before the commit, so the rollback leaves the
database unchanged. -/
def placeOrderTx (db : DB) (cid bid : Nat) (notes : String)
    (fault : Option PlaceStep) : PlaceResult × DB :=
  match db.batches.find? (fun b => b.batch_id == bid) with
  | none => (.NotFound, db)
  | some row =>
    if row.status != "available" then (.NotAvailable row.status, db)
    else if fault == some .orderInsert then (.Failed, db)
    else
      let total := row.price_per_unit
      let oid := db.nextOrderId
      let newOrder : Order :=
        { order_id := oid, customer_id := cid, retailer_id := row.retailer_id,
          total_amount := total, status := "placed", notes := notes,
          modified_at := none }
      if fault == some .itemInsert then (.Failed, db)
      else
        let newItem : OrderItem :=
          { order_item_id := db.nextOrderItemId, order_id := oid,
            batch_id := row.batch_id, blood_type_id := row.blood_type_id,
            quantity_ml := row.quantity_ml, unit_price := row.price_per_unit,
            subtotal := row.price_per_unit }
        if fault == some .paymentInsert then (.Failed, db)
        else
          let newPayment : Payment :=
            { payment_id := db.nextPaymentId, order_id := oid, amount := total,
              method := "bank_transfer", status := "pending" }
          if fault == some .batchUpdate then (.Failed, db)
          else
            (.Placed oid,
              { db with
                orders := db.orders ++ [newOrder],
                order_items := db.order_items ++ [newItem],
                payments := db.payments ++ [newPayment],
                batches := db.batches.map (fun b =>
                  if b.batch_id == bid then { b with status := "reserved" } else b),
                nextOrderId := db.nextOrderId + 1,
                nextOrderItemId := db.nextOrderItemId + 1,
                nextPaymentId := db.nextPaymentId + 1 })

/-- Place Order without an injected fault (the normal execution). -/
def placeOrder (db : DB) (cid bid : Nat) (notes : String) : PlaceResult × DB :=
  placeOrderTx db cid bid notes none

/-- Result of a Simulate-Pay-Now attempt.  NotShown models the source not
rendering the Pay Now button for the row (line 727 requires the order row
to show status placed and payment status pending); PayFailed is the
exception branch with its rollback. -/
inductive PayResult where
  | NotShown : PayResult
  | Paid : Nat → PayResult
  | PayFailed : PayResult
deriving Repr, DecidableEq

/-- True only for a completed payment. -/
def PayResult.isPaid : PayResult → Bool
  | .Paid _ => true
  | _ => false

/-- Simulate Pay Now (Customer Portal).  Mirrors src/bloodbank.py lines
727 to 746.  The button is rendered from the orders-LEFT-JOIN-payments
query of the customer, fetched through fetch_df, which st.cache_data
(ttl=30, line 48) may serve from cache: snap is that possibly stale
snapshot, db the live database the statements hit.  The button exists
only when the snapshot row shows order status placed and payment status
pending; clicking it opens a transaction (autocommit=False) whose two
UPDATEs carry no status condition - they set the order with this id to
confirmed with modified_at = NOW() and the payment with the snapshot
payment_id to completed with method upi - then commits; an exception
rolls both updates back.  A fresh render has snap = db. -/
def simulatePayNowCached (snap db : DB) (now cid oid : Nat) (fault : Bool) :
    PayResult × DB :=
  match snap.orders.find? (fun o => o.order_id == oid) with
  | none => (.NotShown, db)
  | some o =>
    if o.customer_id == cid && o.status == "placed" then
      match snap.payments.find? (fun p => p.order_id == oid) with
      | none => (.NotShown, db)
      | some p =>
        if p.status == "pending" then
          if fault then (.PayFailed, db)
          else
            (.Paid oid,
              { db with
                orders := db.orders.map (fun o2 =>
                  if o2.order_id == oid then
                    { o2 with status := "confirmed", modified_at := some now }
                  else o2),
                payments := db.payments.map (fun p2 =>
                  if p2.payment_id == p.payment_id then
                    { p2 with status := "completed", method := "upi" }
                  else p2) })
        else (.NotShown, db)
    else (.NotShown, db)

/-- Simulate Pay Now on a fresh snapshot (the cache holds the current
state). -/
def simulatePayNowTx (db : DB) (now cid oid : Nat) (fault : Bool) :
    PayResult × DB :=
  simulatePayNowCached db db now cid oid fault

/-- Simulate Pay Now on a fresh snapshot without an injected fault. -/
def simulatePayNow (db : DB) (now cid oid : Nat) : PayResult × DB :=
  simulatePayNowTx db now cid oid false

/-- Update Order Status (Retailer Dashboard).  Mirrors src/bloodbank.py
lines 935 to 957.  Each statement runs through the helper execute on its
own auto-commit connection: first UPDATE orders SET status, modified_at
WHERE order_id AND retailer_id; then, only when the new status is
cancelled, SELECT the order items of the order (no retailer filter in the
source) and set the first listed batch back to available.  A fault on the
restock statement leaves the already-committed order update in place. -/
def updateOrderStatus (db : DB) (now rid oid : Nat) (new_status : String)
    (failRestock : Bool) : DB :=
  let db1 : DB :=
    { db with
      orders := db.orders.map (fun o =>
        if o.order_id == oid && o.retailer_id == rid then
          { o with status := new_status, modified_at := some now }
        else o) }
  if new_status == "cancelled" then
    if failRestock then db1
    else
      match db1.order_items.filter (fun it => it.order_id == oid) with
      | [] => db1
      | it :: _ =>
        { db1 with
          batches := db1.batches.map (fun b =>
            if b.batch_id == it.batch_id then { b with status := "available" }
            else b) }
  else db1

/-- Record Donation (Retailer Dashboard).  Mirrors src/bloodbank.py lines
877 to 910: reject empty donor name or phone before any statement; then,
in one transaction, look the donor up by phone and reuse its id or insert
a new donor, insert the donation with collected_at = NOW() and the batch
with unit_count 1, quality A, status available and
expiry_date = CURDATE() + 35 days, then commit.  today stands for both
NOW() and CURDATE() (as a day number). -/
def recordDonation (db : DB) (today rid : Nat) (donor_name donor_phone : String)
    (bt_id volume price : Nat) : DB :=
  if donor_name == "" || donor_phone == "" then db
  else
    let donor_row := db.donors.find? (fun d => d.phone == donor_phone)
    let did : Nat :=
      match donor_row with
      | some d => d.donor_id
      | none => db.nextDonorId
    let donors' : List Donor :=
      match donor_row with
      | some _ => db.donors
      | none => db.donors ++
          [{ donor_id := db.nextDonorId, full_name := donor_name,
             phone := donor_phone, blood_type_id := bt_id }]
    let nextDonorId' : Nat :=
      match donor_row with
      | some _ => db.nextDonorId
      | none => db.nextDonorId + 1
    let newDonation : Donation :=
      { donation_id := db.nextDonationId, donor_id := some did,
        retailer_id := rid, collected_at := today, volume_ml := volume }
    let newBatch : Batch :=
      { batch_id := db.nextBatchId, donation_id := some db.nextDonationId,
        retailer_id := rid, blood_type_id := bt_id, quantity_ml := volume,
        unit_count := 1, quality := "A", status := "available",
        price_per_unit := price, expiry_date := some (today + 35) }
    { db with
      donors := donors',
      nextDonorId := nextDonorId',
      donations := db.donations ++ [newDonation],
      nextDonationId := db.nextDonationId + 1,
      batches := db.batches ++ [newBatch],
      nextBatchId := db.nextBatchId + 1 }

/-- One row of the customer browse result set (the selected columns of
the query at src/bloodbank.py lines 605 to 620). -/
structure BrowseRow where
  batch_id : Nat
  retailer_id : Nat
  retailer_name : String
  city : String
  blood_type : String
  quantity_ml : Nat
  unit_count : Nat
  quality : String
  price_per_unit : Nat
  expiry_date : Option Nat
deriving Repr, DecidableEq

/-- pat occurs as a contiguous run inside s. -/
def hasSubstring : List Char → List Char → Bool
  | [], pat => pat.isEmpty
  | c :: t, pat => pat.isPrefixOf (c :: t) || hasSubstring t pat

/-- The LIKE percent-percent pattern of the city filter: pat occurs as a
substring of s. -/
def likeContains (s pat : String) : Bool :=
  hasSubstring s.toList pat.toList

/-- Browse and Order query (Customer Portal).  Mirrors src/bloodbank.py
lines 605 to 620: inventory_batches JOIN retailers JOIN blood_types,
WHERE status = available AND (expiry_date IS NULL OR expiry_date >=
CURDATE()), with the optional filters the UI appends: blood-type code
unless the selection is All, city LIKE unless the field is empty, and
price_per_unit <= max_price unless max_price is 0 (the source tests the
Python truthiness of max_price).  The ORDER BY clause only reorders rows
and is omitted.  Retailer name is NOT NULL in the schema, so IFNULL is
the identity here. -/
def browseQuery (db : DB) (today : Nat) (sel_btype city : String)
    (max_price : Nat) : List BrowseRow :=
  db.batches.filterMap (fun i =>
    match db.retailers.find? (fun r => r.retailer_id == i.retailer_id) with
    | none => none
    | some r =>
      match db.blood_types.find? (fun bt => bt.id == i.blood_type_id) with
      | none => none
      | some bt =>
        if i.status == "available"
            && (match i.expiry_date with
                | none => true
                | some d => decide (today ≤ d))
            && (sel_btype == "All" || bt.code == sel_btype)
            && (city == "" || likeContains r.city city)
            && (max_price == 0 || decide (i.price_per_unit ≤ max_price)) then
          some { batch_id := i.batch_id, retailer_id := r.retailer_id,
                 retailer_name := r.name, city := r.city, blood_type := bt.code,
                 quantity_ml := i.quantity_ml, unit_count := i.unit_count,
                 quality := i.quality, price_per_unit := i.price_per_unit,
                 expiry_date := i.expiry_date }
        else none)

/-! Concrete states used to exercise the theorems. -/

/-- A database with empty tables and fresh counters. -/
def emptyDB : DB :=
  { batches := [], orders := [], order_items := [], payments := [],
    donors := [], donations := [], retailers := [], blood_types := [],
    nextOrderId := 1, nextOrderItemId := 1, nextPaymentId := 1,
    nextDonorId := 1, nextDonationId := 1, nextBatchId := 1 }

/-- The batch of the running example of the spec: batch 7, priced 2000. -/
def batch7 : Batch :=
  { batch_id := 7, donation_id := none, retailer_id := 2, blood_type_id := 1,
    quantity_ml := 450, unit_count := 1, quality := "A", status := "available",
    price_per_unit := 2000, expiry_date := some 400 }

/-! Helper lemmas shared by several proofs. -/

/-- find? commutes with a map whose function leaves the predicate
unchanged (here: updating a status never changes the key the row is
looked up by). -/
theorem find?_map_comm {α : Type} (f : α → α) (p : α → Bool) (l : List α)
    (h : ∀ a, p (f a) = p a) :
    (l.map f).find? p = (l.find? p).map f := by
  induction l with
  | nil => rfl
  | cons a t ih =>
    simp only [List.map_cons, List.find?, h a]
    cases hp : p a
    · simpa using ih
    · rfl

/-- The committed state of a successful order placement, in full. -/
theorem placeOrder_success_eq (db : DB) (cid bid : Nat) (notes : String)
    (b : Batch)
    (hfind : db.batches.find? (fun b2 => b2.batch_id == bid) = some b)
    (hav : b.status = "available") :
    placeOrder db cid bid notes =
      (.Placed db.nextOrderId,
        { db with
          orders := db.orders ++
            [{ order_id := db.nextOrderId, customer_id := cid,
               retailer_id := b.retailer_id, total_amount := b.price_per_unit,
               status := "placed", notes := notes, modified_at := none }],
          order_items := db.order_items ++
            [{ order_item_id := db.nextOrderItemId, order_id := db.nextOrderId,
               batch_id := b.batch_id, blood_type_id := b.blood_type_id,
               quantity_ml := b.quantity_ml, unit_price := b.price_per_unit,
               subtotal := b.price_per_unit }],
          payments := db.payments ++
            [{ payment_id := db.nextPaymentId, order_id := db.nextOrderId,
               amount := b.price_per_unit, method := "bank_transfer",
               status := "pending" }],
          batches := db.batches.map (fun b2 =>
            if b2.batch_id == bid then { b2 with status := "reserved" } else b2),
          nextOrderId := db.nextOrderId + 1,
          nextOrderItemId := db.nextOrderItemId + 1,
          nextPaymentId := db.nextPaymentId + 1 }) := by
  simp [placeOrder, placeOrderTx, hfind, hav]

/-- A placement attempt on a batch whose status is not available reports
that status and leaves the state untouched. -/
theorem placeOrder_unavailable_eq (db : DB) (cid bid : Nat) (notes : String)
    (b : Batch)
    (hfind : db.batches.find? (fun b2 => b2.batch_id == bid) = some b)
    (hs : (b.status == "available") = false) :
    placeOrder db cid bid notes = (.NotAvailable b.status, db) := by
  have hs' : b.status ≠ "available" := by simpa using hs
  simp [placeOrder, placeOrderTx, hfind, hs']

/-! Claim theorems. -/

/-- C1: for every batch B whose status is not available, an
order-placement attempt referencing B fails with NotAvailable and leaves
the database unchanged (so the status and row count of B are unchanged
and no Order, OrderItem or Payment row is created); if the batch id does
not exist the attempt fails with NotFound, likewise changing nothing. -/
theorem placeOrder_failure_changes_nothing (db : DB) (cid bid : Nat)
    (notes : String) :
    (db.batches.find? (fun b2 => b2.batch_id == bid) = none →
      placeOrder db cid bid notes = (.NotFound, db))
    ∧ ∀ b, db.batches.find? (fun b2 => b2.batch_id == bid) = some b →
        (b.status == "available") = false →
        placeOrder db cid bid notes = (.NotAvailable b.status, db) := by
  constructor
  · intro h
    simp [placeOrder, placeOrderTx, h]
  · intro b hb hs
    have hs' : b.status ≠ "available" := by simpa using hs
    simp [placeOrder, placeOrderTx, hb, hs']

/-- A database holding only a reserved copy of batch 7. -/
def dbC1 : DB := { emptyDB with batches := [{ batch7 with status := "reserved" }] }

/-- Witness for C1: on dbC1, ordering the missing batch 9 reports
NotFound, ordering the reserved batch 7 reports NotAvailable, and both
leave the state unchanged. -/
theorem placeOrder_failure_witness :
    placeOrder dbC1 1 9 "" = (.NotFound, dbC1)
    ∧ placeOrder dbC1 1 7 "" = (.NotAvailable "reserved", dbC1) :=
  ⟨(placeOrder_failure_changes_nothing dbC1 1 9 "").1 (by rfl),
   (placeOrder_failure_changes_nothing dbC1 1 7 "").2
     { batch7 with status := "reserved" } (by rfl) (by rfl)⟩

/-- C2: a successful placement on an available batch B by customer C
creates exactly one Order (customer C, the retailer of B, total
B.price_per_unit, status placed), one OrderItem referencing B with
unit_price = subtotal = B.price_per_unit, one Payment of that amount
with method bank_transfer and status pending, and sets B to reserved
while every other batch is untouched. -/
theorem placeOrder_success_effects (db : DB) (cid bid : Nat) (notes : String)
    (b : Batch)
    (hfind : db.batches.find? (fun b2 => b2.batch_id == bid) = some b)
    (hav : b.status = "available") :
    (placeOrder db cid bid notes).1 = .Placed db.nextOrderId
    ∧ (placeOrder db cid bid notes).2.orders = db.orders ++
        [{ order_id := db.nextOrderId, customer_id := cid,
           retailer_id := b.retailer_id, total_amount := b.price_per_unit,
           status := "placed", notes := notes, modified_at := none }]
    ∧ (placeOrder db cid bid notes).2.order_items = db.order_items ++
        [{ order_item_id := db.nextOrderItemId, order_id := db.nextOrderId,
           batch_id := b.batch_id, blood_type_id := b.blood_type_id,
           quantity_ml := b.quantity_ml, unit_price := b.price_per_unit,
           subtotal := b.price_per_unit }]
    ∧ (placeOrder db cid bid notes).2.payments = db.payments ++
        [{ payment_id := db.nextPaymentId, order_id := db.nextOrderId,
           amount := b.price_per_unit, method := "bank_transfer",
           status := "pending" }]
    ∧ (placeOrder db cid bid notes).2.batches.length = db.batches.length
    ∧ (∀ b2 ∈ (placeOrder db cid bid notes).2.batches,
        b2.batch_id = bid → b2.status = "reserved")
    ∧ (∀ b2 ∈ (placeOrder db cid bid notes).2.batches,
        b2.batch_id ≠ bid → b2 ∈ db.batches) := by
  rw [placeOrder_success_eq db cid bid notes b hfind hav]
  refine ⟨rfl, rfl, rfl, rfl, by simp, ?_, ?_⟩
  · intro b2 hb2 hid
    obtain ⟨a, _, rfl⟩ := List.mem_map.mp hb2
    by_cases ha : a.batch_id = bid
    · simp [ha]
    · simp [ha] at hid
  · intro b2 hb2 hid
    obtain ⟨a, hmem, rfl⟩ := List.mem_map.mp hb2
    by_cases ha : a.batch_id = bid
    · exact absurd (by simp [ha]) hid
    · simpa [ha] using hmem

/-- A database holding the available batch 7 of the running example. -/
def dbC2 : DB := { emptyDB with batches := [batch7] }

/-- Witness for C2: placing an order on batch 7 priced 2000 in dbC2
yields order id 1 and the single pending bank_transfer payment of
2000. -/
theorem placeOrder_success_witness :
    (placeOrder dbC2 1 7 "").1 = .Placed 1
    ∧ (placeOrder dbC2 1 7 "").2.payments =
        [{ payment_id := 1, order_id := 1, amount := 2000,
           method := "bank_transfer", status := "pending" }] :=
  ⟨(placeOrder_success_effects dbC2 1 7 "" batch7 rfl rfl).1, by
    have h := (placeOrder_success_effects dbC2 1 7 "" batch7 rfl rfl).2.2.2.1
    simpa using h⟩

/-- C3: order placement is atomic: a fault injected at any of the four
writes (order insert, item insert, payment insert, batch update) leaves
the committed database exactly as it was, because the source commits
only once after all four statements; in particular no Order, OrderItem
or Payment row persists and the batch keeps its status. -/
theorem placeOrder_atomic (db : DB) (cid bid : Nat) (notes : String)
    (s : PlaceStep) :
    (placeOrderTx db cid bid notes (some s)).2 = db
    ∧ (placeOrderTx db cid bid notes (some s)).1.isPlaced = false := by
  unfold placeOrderTx
  cases hf : db.batches.find? (fun b2 => b2.batch_id == bid) with
  | none => exact ⟨rfl, rfl⟩
  | some row =>
    by_cases hs : (row.status != "available") = true
    · simp [hs, PlaceResult.isPlaced]
    · cases s <;> simp [hs, PlaceResult.isPlaced]

/-- A database in which retailer 2 holds the reserved batch 3, sold
through the confirmed order 1 of customer 5. -/
def dbC4 : DB :=
  { emptyDB with
    batches := [{ batch7 with batch_id := 3, status := "reserved" }],
    orders := [{ order_id := 1, customer_id := 5, retailer_id := 2,
                 total_amount := 2000, status := "confirmed", notes := "",
                 modified_at := none }],
    order_items := [{ order_item_id := 1, order_id := 1, batch_id := 3,
                      blood_type_id := 1, quantity_ml := 450,
                      unit_price := 2000, subtotal := 2000 }],
    payments := [{ payment_id := 1, order_id := 1, amount := 2000,
                   method := "upi", status := "completed" }],
    nextOrderId := 2, nextOrderItemId := 2, nextPaymentId := 2,
    nextBatchId := 4 }

/-- C4 (refuting the as-stated claim): the order-status update and the
batch restock of a retailer cancellation run as two separate
auto-committed statements, so they are not one transaction: when the
restock statement fails after the status update committed, the database
persists with the order cancelled while its batch stays reserved -
exactly the intermediate state the claim rules out. -/
theorem cancel_restock_not_atomic :
    ((updateOrderStatus dbC4 9 2 1 "cancelled" true).orders.map Order.status
      = ["cancelled"])
    ∧ ((updateOrderStatus dbC4 9 2 1 "cancelled" true).batches.map Batch.status
      = ["reserved"]) := by
  constructor <;> rfl

/-- The same state as dbC4, kept separate for claim C5. -/
def dbC5 : DB :=
  { emptyDB with
    batches := [{ batch7 with batch_id := 3, status := "reserved" }],
    orders := [{ order_id := 1, customer_id := 5, retailer_id := 2,
                 total_amount := 2000, status := "confirmed", notes := "",
                 modified_at := none }],
    order_items := [{ order_item_id := 1, order_id := 1, batch_id := 3,
                      blood_type_id := 1, quantity_ml := 450,
                      unit_price := 2000, subtotal := 2000 }],
    payments := [{ payment_id := 1, order_id := 1, amount := 2000,
                   method := "upi", status := "completed" }],
    nextOrderId := 2, nextOrderItemId := 2, nextPaymentId := 2,
    nextBatchId := 4 }

/-- C5 (refuting the as-stated claim): the restock query of the
cancellation path has no retailer filter, so retailer 8, who does not
own order 1 (owned by retailer 2), can request status cancelled: the
order UPDATE matches nothing - order 1 keeps status confirmed - yet the
restock still flips the reserved batch 3 of that order to available, so
the state does change for a non-owning retailer. -/
theorem cancel_by_other_retailer_restocks :
    ((updateOrderStatus dbC5 9 8 1 "cancelled" false).orders.map Order.status
      = ["confirmed"])
    ∧ ((updateOrderStatus dbC5 9 8 1 "cancelled" false).batches.map Batch.status
      = ["available"]) := by
  constructor <;> rfl

/-- The orders-and-payments view cached at first render: order 1 of
customer 5 still shows status placed with its payment pending. -/
def dbC6 : DB :=
  { emptyDB with
    batches := [{ batch7 with status := "reserved" }],
    orders := [{ order_id := 1, customer_id := 5, retailer_id := 2,
                 total_amount := 2000, status := "placed", notes := "",
                 modified_at := none }],
    payments := [{ payment_id := 1, order_id := 1, amount := 2000,
                   method := "bank_transfer", status := "pending" }],
    nextOrderId := 2, nextOrderItemId := 2, nextPaymentId := 2 }

/-- The live database a moment later: the first Pay Now click confirmed
order 1 and completed payment 1, and the retailer has since moved the
order on to preparing (modified_at 20). -/
def dbC6stale : DB :=
  { emptyDB with
    batches := [{ batch7 with status := "reserved" }],
    orders := [{ order_id := 1, customer_id := 5, retailer_id := 2,
                 total_amount := 2000, status := "preparing", notes := "",
                 modified_at := some 20 }],
    payments := [{ payment_id := 1, order_id := 1, amount := 2000,
                   method := "upi", status := "completed" }],
    nextOrderId := 2, nextOrderItemId := 2, nextPaymentId := 2 }

/-- C6 (refuting the as-stated claim): the placed/pending guard is
evaluated on the fetch_df DataFrame that st.cache_data (ttl=30) may
serve stale, and the two UPDATEs carry no status condition, so within
the cache window a second Pay Now click on order 1 re-executes both
updates against the moved-on live state dbC6stale: the call succeeds
although the order now has status preparing, flips it back to confirmed
and refreshes modified_at from 20 to 30 - a second state change and a
success outside the placed/pending precondition, both of which the
claim rules out. -/
theorem simulatePayNow_stale_reexecutes :
    (simulatePayNowCached dbC6 dbC6stale 30 5 1 false).1 = .Paid 1
    ∧ dbC6stale.orders.map Order.status = ["preparing"]
    ∧ (simulatePayNowCached dbC6 dbC6stale 30 5 1 false).2.orders.map
        Order.status = ["confirmed"]
    ∧ dbC6stale.orders.map Order.modified_at = [some 20]
    ∧ (simulatePayNowCached dbC6 dbC6stale 30 5 1 false).2.orders.map
        Order.modified_at = [some 30] := by
  refine ⟨rfl, rfl, rfl, rfl, rfl⟩

/-- A database holding the placed order 1 of customer 5 with its pending
bank_transfer payment, as order placement created them. -/
def dbC7 : DB :=
  { emptyDB with
    batches := [{ batch7 with status := "reserved" }],
    orders := [{ order_id := 1, customer_id := 5, retailer_id := 2,
                 total_amount := 2000, status := "placed", notes := "",
                 modified_at := none }],
    payments := [{ payment_id := 1, order_id := 1, amount := 2000,
                   method := "bank_transfer", status := "pending" }],
    nextOrderId := 2, nextOrderItemId := 2, nextPaymentId := 2 }

/-- C7 (refuting the as-stated claim): completing the payment of order 1
in dbC7 does NOT leave the method field of the Payment row unchanged:
the payment was created with method bank_transfer and the pay-now UPDATE
also sets method = upi. -/
theorem simulatePayNow_changes_method :
    dbC7.payments.map Payment.method = ["bank_transfer"]
    ∧ (simulatePayNow dbC7 10 5 1).2.payments.map Payment.method = ["upi"] := by
  constructor <;> rfl

/-- C7 as amended: payment completion touches only the orders and
payments tables; every surviving Payment row keeps its payment_id,
order_id and amount, and is either unchanged or has exactly its status
set to completed and its method set to upi; every surviving Order row
keeps its order_id, customer_id, retailer_id, total_amount and notes,
and is either unchanged or has exactly its status set to confirmed and
its modification timestamp refreshed. -/
theorem simulatePayNow_frame (db : DB) (now cid oid : Nat) :
    (simulatePayNow db now cid oid).2.batches = db.batches
    ∧ (simulatePayNow db now cid oid).2.order_items = db.order_items
    ∧ (simulatePayNow db now cid oid).2.donors = db.donors
    ∧ (simulatePayNow db now cid oid).2.donations = db.donations
    ∧ (∀ p' ∈ (simulatePayNow db now cid oid).2.payments, ∃ p ∈ db.payments,
        p'.payment_id = p.payment_id ∧ p'.order_id = p.order_id ∧
        p'.amount = p.amount ∧
        (p' = p ∨ (p'.status = "completed" ∧ p'.method = "upi")))
    ∧ (∀ o' ∈ (simulatePayNow db now cid oid).2.orders, ∃ o ∈ db.orders,
        o'.order_id = o.order_id ∧ o'.customer_id = o.customer_id ∧
        o'.retailer_id = o.retailer_id ∧ o'.total_amount = o.total_amount ∧
        o'.notes = o.notes ∧
        (o' = o ∨ (o'.status = "confirmed" ∧ o'.modified_at = some now))) := by
  have hcases : (simulatePayNow db now cid oid).2 = db
      ∨ ∃ p, db.payments.find? (fun p2 => p2.order_id == oid) = some p ∧
        (simulatePayNow db now cid oid).2 =
          { db with
            orders := db.orders.map (fun o2 =>
              if o2.order_id == oid then
                { o2 with status := "confirmed", modified_at := some now }
              else o2),
            payments := db.payments.map (fun p2 =>
              if p2.payment_id == p.payment_id then
                { p2 with status := "completed", method := "upi" }
              else p2) } := by
    cases ho : db.orders.find? (fun o => o.order_id == oid) with
    | none => left; simp [simulatePayNow, simulatePayNowTx, simulatePayNowCached, ho]
    | some o =>
      cases hc : o.customer_id == cid && o.status == "placed" with
      | false => left; simp [simulatePayNow, simulatePayNowTx, simulatePayNowCached, ho, hc]
      | true =>
        cases hp : db.payments.find? (fun p2 => p2.order_id == oid) with
        | none => left; simp [simulatePayNow, simulatePayNowTx, simulatePayNowCached, ho, hc, hp]
        | some p =>
          cases hpend : p.status == "pending" with
          | false => left; simp [simulatePayNow, simulatePayNowTx, simulatePayNowCached, ho, hc, hp, hpend]
          | true =>
            right
            exact ⟨p, rfl, by simp [simulatePayNow, simulatePayNowTx, simulatePayNowCached, ho, hc, hp, hpend]⟩
  rcases hcases with heq | ⟨p, _, heq⟩
  · rw [heq]
    refine ⟨rfl, rfl, rfl, rfl, ?_, ?_⟩
    · intro p' hp'
      exact ⟨p', hp', rfl, rfl, rfl, Or.inl rfl⟩
    · intro o' ho'
      exact ⟨o', ho', rfl, rfl, rfl, rfl, rfl, Or.inl rfl⟩
  · rw [heq]
    refine ⟨rfl, rfl, rfl, rfl, ?_, ?_⟩
    · intro p' hp'
      obtain ⟨a, ha, rfl⟩ := List.mem_map.mp hp'
      by_cases h2 : a.payment_id = p.payment_id
      · refine ⟨a, ha, ?_, ?_, ?_, Or.inr ⟨?_, ?_⟩⟩ <;> simp [h2]
      · refine ⟨a, ha, ?_, ?_, ?_, Or.inl ?_⟩ <;> simp [h2]
    · intro o' ho'
      obtain ⟨a, ha, rfl⟩ := List.mem_map.mp ho'
      by_cases h2 : a.order_id = oid
      · refine ⟨a, ha, ?_, ?_, ?_, ?_, ?_, Or.inr ⟨?_, ?_⟩⟩ <;> simp [h2]
      · refine ⟨a, ha, ?_, ?_, ?_, ?_, ?_, Or.inl ?_⟩ <;> simp [h2]

/-- Witness for the amended C7: applied to the payment row produced by
paying order 1 in dbC7, the frame theorem recovers the original pending
bank_transfer row of dbC7 with the same id, order and amount. -/
theorem simulatePayNow_frame_witness :
    ∃ p ∈ dbC7.payments,
      ({ payment_id := 1, order_id := 1, amount := 2000, method := "upi",
         status := "completed" } : Payment).payment_id = p.payment_id ∧
      ({ payment_id := 1, order_id := 1, amount := 2000, method := "upi",
         status := "completed" } : Payment).order_id = p.order_id ∧
      ({ payment_id := 1, order_id := 1, amount := 2000, method := "upi",
         status := "completed" } : Payment).amount = p.amount ∧
      (({ payment_id := 1, order_id := 1, amount := 2000, method := "upi",
          status := "completed" } : Payment) = p ∨
        (({ payment_id := 1, order_id := 1, amount := 2000, method := "upi",
            status := "completed" } : Payment).status = "completed" ∧
         ({ payment_id := 1, order_id := 1, amount := 2000, method := "upi",
            status := "completed" } : Payment).method = "upi")) :=
  (simulatePayNow_frame dbC7 10 5 1).2.2.2.2.1
    { payment_id := 1, order_id := 1, amount := 2000, method := "upi",
      status := "completed" } (by decide)

/-- C8: every donation recording (with the non-empty name and phone the
form requires) appends exactly one Donation collected today and exactly
one InventoryBatch linked to that donation, starting available with
expiry = collection date + 35 days; a previously unseen phone appends
exactly one new Donor with that phone, while a known phone leaves the
donors table unchanged and reuses the existing donor id. -/
theorem recordDonation_effects (db : DB) (today rid : Nat)
    (donor_name donor_phone : String) (bt_id volume price : Nat)
    (hn : (donor_name == "") = false) (hp : (donor_phone == "") = false) :
    ∃ dn b2,
      (recordDonation db today rid donor_name donor_phone bt_id volume price).donations
        = db.donations ++ [dn]
      ∧ (recordDonation db today rid donor_name donor_phone bt_id volume price).batches
        = db.batches ++ [b2]
      ∧ dn.collected_at = today
      ∧ b2.donation_id = some dn.donation_id
      ∧ b2.status = "available"
      ∧ b2.expiry_date = some (dn.collected_at + 35)
      ∧ b2.unit_count = 1
      ∧ (match db.donors.find? (fun d => d.phone == donor_phone) with
         | some d =>
            (recordDonation db today rid donor_name donor_phone bt_id volume price).donors
              = db.donors
            ∧ dn.donor_id = some d.donor_id
         | none => ∃ d2,
            (recordDonation db today rid donor_name donor_phone bt_id volume price).donors
              = db.donors ++ [d2]
            ∧ d2.phone = donor_phone ∧ dn.donor_id = some d2.donor_id) := by
  cases hfd : db.donors.find? (fun d => d.phone == donor_phone) with
  | some d =>
    refine ⟨{ donation_id := db.nextDonationId, donor_id := some d.donor_id,
              retailer_id := rid, collected_at := today, volume_ml := volume },
            { batch_id := db.nextBatchId, donation_id := some db.nextDonationId,
              retailer_id := rid, blood_type_id := bt_id, quantity_ml := volume,
              unit_count := 1, quality := "A", status := "available",
              price_per_unit := price, expiry_date := some (today + 35) },
            ?_, ?_, rfl, rfl, rfl, rfl, rfl, ?_, rfl⟩ <;>
      simp [recordDonation, hn, hp, hfd]
  | none =>
    refine ⟨{ donation_id := db.nextDonationId, donor_id := some db.nextDonorId,
              retailer_id := rid, collected_at := today, volume_ml := volume },
            { batch_id := db.nextBatchId, donation_id := some db.nextDonationId,
              retailer_id := rid, blood_type_id := bt_id, quantity_ml := volume,
              unit_count := 1, quality := "A", status := "available",
              price_per_unit := price, expiry_date := some (today + 35) },
            ?_, ?_, rfl, rfl, rfl, rfl, rfl,
            ⟨{ donor_id := db.nextDonorId, full_name := donor_name,
               phone := donor_phone, blood_type_id := bt_id },
             ?_, rfl, rfl⟩⟩ <;>
      simp [recordDonation, hn, hp, hfd]

/-- Witness for C8: recording a donation from a fresh phone on the empty
database creates the donor, the donation and the available batch with
expiry 35 days after collection. -/
theorem recordDonation_effects_witness :
    ∃ dn b2,
      (recordDonation emptyDB 100 2 "Asha" "+911234500000" 3 450 2000).donations
        = emptyDB.donations ++ [dn]
      ∧ (recordDonation emptyDB 100 2 "Asha" "+911234500000" 3 450 2000).batches
        = emptyDB.batches ++ [b2]
      ∧ dn.collected_at = 100
      ∧ b2.donation_id = some dn.donation_id
      ∧ b2.status = "available"
      ∧ b2.expiry_date = some (dn.collected_at + 35)
      ∧ b2.unit_count = 1
      ∧ (match emptyDB.donors.find? (fun d => d.phone == "+911234500000") with
         | some d =>
            (recordDonation emptyDB 100 2 "Asha" "+911234500000" 3 450 2000).donors
              = emptyDB.donors
            ∧ dn.donor_id = some d.donor_id
         | none => ∃ d2,
            (recordDonation emptyDB 100 2 "Asha" "+911234500000" 3 450 2000).donors
              = emptyDB.donors ++ [d2]
            ∧ d2.phone = "+911234500000" ∧ dn.donor_id = some d2.donor_id) :=
  recordDonation_effects emptyDB 100 2 "Asha" "+911234500000" 3 450 2000 rfl rfl

/-- C9: two purchase attempts on the same available batch, serialized by
the FOR UPDATE row lock of the source, cannot both succeed: whichever
customer runs first gets the order (one new Order, OrderItem and
Payment, batch reserved) and the second attempt observes NotAvailable
and changes nothing. -/
theorem placeOrder_race_serialized (db : DB) (c1 c2 bid : Nat) (n1 n2 : String)
    (b : Batch)
    (hfind : db.batches.find? (fun b2 => b2.batch_id == bid) = some b)
    (hav : b.status = "available") :
    (placeOrder db c1 bid n1).1 = .Placed db.nextOrderId
    ∧ placeOrder (placeOrder db c1 bid n1).2 c2 bid n2 =
        (.NotAvailable "reserved", (placeOrder db c1 bid n1).2)
    ∧ (placeOrder db c1 bid n1).2.orders.length = db.orders.length + 1
    ∧ (placeOrder db c1 bid n1).2.order_items.length = db.order_items.length + 1
    ∧ (placeOrder db c1 bid n1).2.payments.length = db.payments.length + 1
    ∧ ∀ b2 ∈ (placeOrder db c1 bid n1).2.batches,
        b2.batch_id = bid → b2.status = "reserved" := by
  have hres := placeOrder_success_eq db c1 bid n1 b hfind hav
  have hbid : b.batch_id = bid := by simpa using List.find?_some hfind
  have hfind2 : (db.batches.map (fun b2 =>
      if b2.batch_id == bid then { b2 with status := "reserved" } else b2)).find?
        (fun b2 => b2.batch_id == bid) = some { b with status := "reserved" } := by
    rw [find?_map_comm]
    · rw [hfind]
      simp [hbid]
    · intro a
      by_cases h2 : a.batch_id = bid <;> simp [h2]
  refine ⟨by rw [hres], ?_, by rw [hres]; simp, by rw [hres]; simp,
    by rw [hres]; simp, ?_⟩
  · rw [hres]
    exact placeOrder_unavailable_eq _ c2 bid n2 { b with status := "reserved" }
      hfind2 rfl
  · intro b2 hb2 hid
    rw [hres] at hb2
    obtain ⟨a, _, rfl⟩ := List.mem_map.mp hb2
    by_cases h2 : a.batch_id = bid
    · simp [h2]
    · simp [h2] at hid

/-- A database holding the available batch 7, ready to be fought over. -/
def dbC9 : DB := { emptyDB with batches := [batch7] }

/-- Witness for C9: on dbC9, customer 1 reserves batch 7 and the
serialized second attempt by customer 2 observes NotAvailable. -/
theorem placeOrder_race_witness :
    (placeOrder dbC9 1 7 "").1 = .Placed 1
    ∧ placeOrder (placeOrder dbC9 1 7 "").2 2 7 "" =
        (.NotAvailable "reserved", (placeOrder dbC9 1 7 "").2) :=
  ⟨(placeOrder_race_serialized dbC9 1 2 7 "" "" batch7 rfl rfl).1,
   (placeOrder_race_serialized dbC9 1 2 7 "" "" batch7 rfl rfl).2.1⟩

/-- C10: every row of the customer browse listing comes from a batch
whose status is available and whose expiry date is NULL or not earlier
than the current date, for any combination of the optional blood-type,
city and price filters. -/
theorem browseQuery_only_available_unexpired (db : DB) (today : Nat)
    (sel_btype city : String) (max_price : Nat) :
    ∀ row ∈ browseQuery db today sel_btype city max_price,
      ∃ i ∈ db.batches,
        i.batch_id = row.batch_id ∧ i.status = "available" ∧
        i.expiry_date = row.expiry_date ∧
        (row.expiry_date = none ∨ ∃ d, row.expiry_date = some d ∧ today ≤ d) := by
  intro row hrow
  obtain ⟨i, hi, hmk⟩ := List.mem_filterMap.mp hrow
  refine ⟨i, hi, ?_⟩
  cases hr : db.retailers.find? (fun r => r.retailer_id == i.retailer_id) with
  | none =>
    rw [hr] at hmk
    cases hmk
  | some r =>
    cases hbt : db.blood_types.find? (fun bt => bt.id == i.blood_type_id) with
    | none =>
      rw [hr, hbt] at hmk
      cases hmk
    | some bt =>
      rw [hr, hbt] at hmk
      simp only [Option.ite_none_right_eq_some, Option.some.injEq,
        Bool.and_eq_true] at hmk
      obtain ⟨⟨⟨⟨⟨h1, h2⟩, _⟩, _⟩, _⟩, hrow2⟩ := hmk
      subst hrow2
      refine ⟨rfl, by simpa using h1, rfl, ?_⟩
      cases hexp : i.expiry_date with
      | none => exact Or.inl rfl
      | some d =>
        rw [hexp] at h2
        exact Or.inr ⟨d, rfl, of_decide_eq_true h2⟩

/-- A database where retailer 2 in Pune lists the available batch 1. -/
def dbC10 : DB :=
  { emptyDB with
    batches := [{ batch7 with batch_id := 1 }],
    retailers := [{ retailer_id := 2, name := "City Blood Bank", city := "Pune" }],
    blood_types := [{ id := 1, code := "A+" }] }

/-- The row the browse query returns on dbC10 with no filters set. -/
def rowC10 : BrowseRow :=
  { batch_id := 1, retailer_id := 2, retailer_name := "City Blood Bank",
    city := "Pune", blood_type := "A+", quantity_ml := 450, unit_count := 1,
    quality := "A", price_per_unit := 2000, expiry_date := some 400 }

/-- Witness for C10: the one row the browse query returns on dbC10 on day
100 with no filters set comes from the available batch 1, not yet
expired. -/
theorem browseQuery_only_available_witness :
    ∃ i ∈ dbC10.batches,
      i.batch_id = rowC10.batch_id ∧
      i.status = "available" ∧
      i.expiry_date = rowC10.expiry_date ∧
      (rowC10.expiry_date = none ∨ ∃ d, rowC10.expiry_date = some d ∧ 100 ≤ d) :=
  browseQuery_only_available_unexpired dbC10 100 "All" "" 0 rowC10 (by decide)

end BloodBank
